import Mathlib

/-!
Shallow embedding of the amortized-investment trading bot
(`analysis_simulation.py`, `tradingBot.py`, `trade.py`).
Python floats are modelled as exact rationals; `round(x, n)` is modelled
by `pyRound` (round half to even, Python's rounding mode).
-/

/-- Python's `round` to an integer: nearest, ties to even. -/
def pyRound (q : ℚ) : ℤ :=
  if q - ⌊q⌋ < 1/2 then ⌊q⌋
  else if 1/2 < q - ⌊q⌋ then ⌊q⌋ + 1
  else if ⌊q⌋ % 2 = 0 then ⌊q⌋ else ⌊q⌋ + 1

/-- Python's `round(q, 4)`. -/
def round4 (q : ℚ) : ℚ := (pyRound (q * 10000) : ℚ) / 10000

/-- Python's `round(q, 3)`. -/
def round3 (q : ℚ) : ℚ := (pyRound (q * 1000) : ℚ) / 1000

/-- The inner `for j in range(1, i+1)` loop of `depreciate`
(`analysis_simulation.py` lines 29-31): recompute `ans` as `CI` plus the
geometric series with `i` terms. -/
def depSum (rate A CI : ℚ) (i : ℕ) : ℚ :=
  CI + ∑ j ∈ Finset.range i, ((100 - rate) ^ j / 100 ^ j) * A

/-- The outer `for i in range(1, stop+1)` loop of `depreciate`
(`analysis_simulation.py` lines 23-32), with the `break` on
`fixed_capital < A`; `i` is the 1-based iteration index. -/
def depreciateGo (rate A CI : ℚ) : ℕ → ℕ → ℚ → ℚ → ℚ × ℚ
  | 0, _, ans, fc => (ans, fc)
  | n + 1, i, ans, fc =>
    if fc < A then (ans, fc)
    else depreciateGo rate A CI n (i + 1) (depSum rate A CI i) (fc - A)

/-- `depreciate` from `analysis_simulation.py` lines 13-34. -/
def depreciate (stop : ℕ) (rate A CI fixed_capital : ℚ) : ℚ × ℚ :=
  if fixed_capital < A then (CI, fixed_capital)
  else
    let r := depreciateGo rate A CI stop 1 0 fixed_capital
    (round4 r.1, round4 r.2)

/-- The `for i in range(1, stop+1)` loop of `appreciate`
(`analysis_simulation.py` lines 47-55): grow `ans` by `(1 + rate/100)`,
then either transfer `A` to fixed capital or `break`. -/
def appreciateGo (rate A : ℚ) : ℕ → ℚ → ℚ → ℚ × ℚ
  | 0, ans, fc => (ans, fc)
  | n + 1, ans, fc =>
    if A < (1 + rate / 100) * ans then
      appreciateGo rate A n ((1 + rate / 100) * ans - A) (fc + A)
    else ((1 + rate / 100) * ans, fc)

/-- `appreciate` from `analysis_simulation.py` lines 39-58. -/
def appreciate (stop : ℕ) (rate A CI fixed_capital : ℚ) : ℚ × ℚ :=
  let r := appreciateGo rate A stop CI fixed_capital
  (round4 r.1, round4 r.2)

/-- Total compounded growth added to the running investment by
`appreciateGo`: the sum of the `(rate/100) * ans` increments applied before
each transfer test. -/
def appreciateGrowth (rate A : ℚ) : ℕ → ℚ → ℚ
  | 0, _ => 0
  | n + 1, ans =>
    if A < (1 + rate / 100) * ans then
      (rate / 100) * ans + appreciateGrowth rate A n ((1 + rate / 100) * ans - A)
    else (rate / 100) * ans

/-- The pure core of `get_quantity_to_trade` (`trade.py` lines 78-126) and
`TradingBot._get_quantity_to_trade` (`tradingBot.py` lines 82-130): the
exchange metadata `(step_size, min_notional)` and the current price are
inputs; returns `(quantity, order_value)`, with the quantity forced to `0`
when the order value is below the minimum notional. -/
def get_quantity_to_trade (amortized_investment current_price step_size min_notional : ℚ) :
    ℚ × ℚ :=
  let raw_quantity := amortized_investment / current_price
  let quantity_to_buy := (⌊raw_quantity / step_size⌋ : ℚ) * step_size
  let order_value := quantity_to_buy * current_price
  if order_value < min_notional then (0, order_value)
  else (quantity_to_buy, order_value)

/-- Order side. -/
inductive Side
  | buy
  | sell
deriving DecidableEq

/-- Per-tick decision (`tradingBot.py` lines 227, 244). -/
inductive TradeAction
  | buy
  | sell
  | hold
deriving DecidableEq

/-- What happened on one tick of a trading loop. -/
inductive TickOutcome
  | idle
  | skipped
  | orderFailed (side : Side)
  | traded (side : Side)
  | insufficient
deriving DecidableEq

/-- True exactly when the outcome is a successful order dispatch. -/
def TickOutcome.isTraded : TickOutcome → Bool
  | .traded _ => true
  | _ => false

/-- Exchange metadata used for trade sizing. -/
structure MarketInfo where
  step_size : ℚ
  min_notional : ℚ
deriving DecidableEq

/-- The ledger state of `TradingBot` (`tradingBot.py` lines 29-39). -/
structure BotState where
  amortized_investment : ℚ
  rate : ℚ
  fixed_capital : ℚ
  current_investment : ℚ
  last_trade_price : Option ℚ
deriving DecidableEq

/-- One record of the CSV state store (`tradingBot.py` lines 167-173). -/
structure SavedRec where
  amortized_investment : ℚ
  rate : ℚ
  current_investment : ℚ
  fixed_capital : ℚ
  last_trade_price : ℚ
deriving DecidableEq

/-- `TradingBot._save_state` (`tradingBot.py` lines 161-181): append a
record, or do nothing when `last_trade_price` is `None`. -/
def save_state (s : BotState) (store : List SavedRec) : List SavedRec :=
  match s.last_trade_price with
  | none => store
  | some p =>
    store ++ [⟨s.amortized_investment, s.rate, s.current_investment, s.fixed_capital, p⟩]

/-- `TradingBot._load_state` (`tradingBot.py` lines 183-199): read the last
record (`params[-1]`) and overwrite `last_trade_price`,
`current_investment` and `fixed_capital`; keep the configured state when
the store is empty or absent. -/
def load_state (s : BotState) (store : List SavedRec) : BotState :=
  match store.getLast? with
  | none => s
  | some r =>
    { s with last_trade_price := some r.last_trade_price,
             current_investment := r.current_investment,
             fixed_capital := r.fixed_capital }

/-- The percentage move computed in `TradingBot.run_bot`
(`tradingBot.py` line 225). -/
def tickRate (l price : ℚ) : ℚ := round3 (|price - l| / l * 100)

/-- The branch structure of `TradingBot.run_bot` (`tradingBot.py`
lines 227, 244): buy when the price fell by at least the threshold, sell
when it rose by at least the threshold, otherwise hold. -/
def decideAction (threshold l price : ℚ) : TradeAction :=
  if price < l ∧ threshold ≤ tickRate l price then .buy
  else if l < price ∧ threshold ≤ tickRate l price then .sell
  else .hold

/-- One iteration of the `while True` loop of `TradingBot.run_bot`
(`tradingBot.py` lines 219-260), with the exchange calls abstracted:
the tick price, the symbol filters and whether `_place_order` succeeds are
inputs. Returns the new state, the new store and the tick outcome; the
`insufficient` outcome corresponds to the `break` statements. -/
def runBotStep (s : BotState) (store : List SavedRec) (price : ℚ) (m : MarketInfo)
    (orderSucceeds : Bool) : BotState × List SavedRec × TickOutcome :=
  match s.last_trade_price with
  | none => (s, store, .idle)
  | some l =>
    match decideAction s.rate l price with
    | .buy =>
      if s.amortized_investment ≤ s.fixed_capital then
        let q := (get_quantity_to_trade s.amortized_investment price m.step_size m.min_notional).1
        if 0 < q then
          if orderSucceeds then
            let s2 := { s with last_trade_price := some price }
            (s2, save_state s2 store, .traded .buy)
          else (s, store, .orderFailed .buy)
        else (s, store, .skipped)
      else (s, store, .insufficient)
    | .sell =>
      if s.amortized_investment ≤ s.current_investment then
        let q := (get_quantity_to_trade s.amortized_investment price m.step_size m.min_notional).1
        if 0 < q then
          if orderSucceeds then
            let s2 := { s with last_trade_price := some price }
            (s2, save_state s2 store, .traded .sell)
          else (s, store, .orderFailed .sell)
        else (s, store, .skipped)
      else (s, store, .insufficient)
    | .hold => (s, store, .idle)

/-- The `params` dictionary of `TradeBot` (`trade.py` lines 147-156); the
symbol string is omitted. -/
structure TradeParams where
  amortized_investment : ℚ
  rate : ℚ
  current_investment : ℚ
  fixed_capital : ℚ
  last_trade_price : ℚ
  quantity_to_trade : ℚ
  actual_order_value : ℚ
deriving DecidableEq

/-- One iteration of the `while True` loop of `TradeBot`
(`trade.py` lines 164-239), exchange calls abstracted. `R` is `cfg.R` and
`cfgA` is `cfg.A` (the default argument of `get_quantity_to_trade`, which
`TradeBot` calls with no arguments). `int(params['amortized_investment'])`
is modelled by the floor. The order result of `buy`/`sell` is ignored by
the code, so the parameter update and (on the buy path only) the
`save_params_to_csv` append happen regardless of `orderSucceeds`; the
`insufficient` outcome corresponds to the `continue` statements. -/
def tradeBotStep (R cfgA : ℚ) (p : TradeParams) (store : List TradeParams) (price : ℚ)
    (m : MarketInfo) (orderSucceeds : Bool) : TradeParams × List TradeParams × TickOutcome :=
  let last := p.last_trade_price
  let aInt : ℚ := (⌊p.amortized_investment⌋ : ℚ)
  if price < last then
    let rate := round3 ((last - price) / last * 100)
    if R ≤ rate then
      let d := depreciate 1 rate aInt p.current_investment p.fixed_capital
      if d.2 < aInt then (p, store, .insufficient)
      else
        let r := get_quantity_to_trade cfgA price m.step_size m.min_notional
        let p2 := { p with current_investment := d.1, fixed_capital := d.2,
                           last_trade_price := price, quantity_to_trade := r.1,
                           actual_order_value := r.2 }
        (p2, store ++ [p2], if orderSucceeds then .traded .buy else .orderFailed .buy)
    else (p, store, .idle)
  else
    let rate := round3 ((price - last) / last * 100)
    if R ≤ rate then
      let ap := appreciate 1 rate aInt p.current_investment p.fixed_capital
      if ap.1 < aInt then (p, store, .insufficient)
      else
        let r := get_quantity_to_trade cfgA price m.step_size m.min_notional
        let p2 := { p with current_investment := ap.1, fixed_capital := ap.2,
                           last_trade_price := price, quantity_to_trade := r.1,
                           actual_order_value := r.2 }
        (p2, store, if orderSucceeds then .traded .sell else .orderFailed .sell)
    else (p, store, .idle)

/-- Run `TradeBot`'s loop over a list of ticks. The loop never terminates
early: both the insufficiency branches and the blanket exception handler
use `continue`, so every tick is processed. -/
def tradeBotRun (R cfgA : ℚ) (p : TradeParams) (store : List TradeParams) :
    List (ℚ × MarketInfo × Bool) → TradeParams × List TradeParams × List TickOutcome
  | [] => (p, store, [])
  | (price, m, b) :: ts =>
    let r := tradeBotStep R cfgA p store price m b
    let rest := tradeBotRun R cfgA r.1 r.2.1 ts
    (rest.1, rest.2.1, r.2.2 :: rest.2.2)

theorem abs_pyRound_sub (q : ℚ) : |(pyRound q : ℚ) - q| ≤ 1 / 2 := by
  have h1 : ((⌊q⌋ : ℚ)) ≤ q := Int.floor_le q
  have h2 : q < (⌊q⌋ : ℚ) + 1 := Int.lt_floor_add_one q
  unfold pyRound
  split_ifs with ha hb hc <;> rw [abs_le] <;> constructor <;> push_cast <;> linarith

theorem abs_round4_sub (q : ℚ) : |round4 q - q| ≤ 1 / 20000 := by
  have h := abs_pyRound_sub (q * 10000)
  have e : round4 q - q = ((pyRound (q * 10000) : ℚ) - q * 10000) / 10000 := by
    simp only [round4]; ring
  rw [e, abs_div]
  rw [abs_of_pos (by norm_num : (0 : ℚ) < 10000)]
  linarith

theorem getLast?_append_one {α : Type} (l : List α) (a : α) :
    (l ++ [a]).getLast? = some a := by
  induction l with
  | nil => rfl
  | cons x xs ih =>
    cases xs with
    | nil => rfl
    | cons y ys =>
      simp only [List.cons_append]
      rw [List.getLast?_cons_cons]
      simpa using ih

theorem appreciateGo_sum (rate A : ℚ) (n : ℕ) :
    ∀ ans fc : ℚ,
      (appreciateGo rate A n ans fc).1 + (appreciateGo rate A n ans fc).2
        = ans + fc + appreciateGrowth rate A n ans := by
  induction n with
  | zero => intro ans fc; simp [appreciateGo, appreciateGrowth]
  | succ n ih =>
    intro ans fc
    simp only [appreciateGo, appreciateGrowth]
    split_ifs with h
    · rw [ih]; ring
    · ring

/-- C1 counterexample: `depreciate(stop=0, rate=10, A=10, CI=5, fixed_capital=1000)` does
not return `(CI, fixed_capital)`: since `fixed_capital >= A`, the early return is skipped,
`ans` is initialised to `0`, the loop body never runs, and `(0, 1000)` is returned. -/
theorem c1_counterexample : depreciate 0 10 10 5 1000 ≠ (5, 1000) := by
  norm_num [depreciate, depreciateGo, round4, pyRound]

/-- C1 (amended): `depreciate(stop=0, ...)` returns the inputs unchanged only when
`fixed_capital < A` (the early-return branch); when `fixed_capital >= A` it returns
`(0, round4 fixed_capital)`, discarding `CI`. -/
theorem c1_stop_zero (rate A CI fc : ℚ) :
    depreciate 0 rate A CI fc = if fc < A then (CI, fc) else (0, round4 fc) := by
  simp only [depreciate, depreciateGo]
  split_ifs with h
  · rfl
  · norm_num [round4, pyRound]

/-- C2 counterexample: `depreciate(stop=2, rate=10, A=10, CI=0, fixed_capital=1000)`
returns `(19, 980)`, so the pool sum drops from `1000` to `999`: the sum is not conserved
for `stop >= 2`, and the discrepancy of `1` far exceeds the 4-decimal rounding slack. -/
theorem c2_counterexample :
    depreciate 2 10 10 0 1000 = (19, 980) ∧ ¬ |(19 : ℚ) + 980 - (0 + 1000)| ≤ 1 / 10000 := by
  constructor
  · norm_num [depreciate, depreciateGo, depSum, round4, pyRound, Finset.sum_range_succ]
  · norm_num

/-- C2 (amended): with sufficient capital, a single `depreciate` call with `stop = 1`
conserves `fixed_capital + current_investment` up to the 4-decimal output rounding
(within `1/10000`); it fails for `stop >= 2` (see the counterexample). A single
`appreciate` call changes the sum by exactly the compounded growth applied to the running
investment — each transfer of `A` between the pools conserves the sum — exactly before
rounding and within `1/10000` after it. -/
theorem c2_conservation (rate A CI fc : ℚ) (h : A ≤ fc) :
    |(depreciate 1 rate A CI fc).1 + (depreciate 1 rate A CI fc).2 - (CI + fc)| ≤ 1 / 10000
    ∧ (∀ (stop : ℕ) (ci fc0 : ℚ),
        (appreciateGo rate A stop ci fc0).1 + (appreciateGo rate A stop ci fc0).2
          = ci + fc0 + appreciateGrowth rate A stop ci)
    ∧ (∀ (stop : ℕ) (ci fc0 : ℚ),
        |(appreciate stop rate A ci fc0).1 + (appreciate stop rate A ci fc0).2
            - (ci + fc0 + appreciateGrowth rate A stop ci)| ≤ 1 / 10000) := by
  refine ⟨?_, fun stop ci fc0 => appreciateGo_sum rate A stop ci fc0, ?_⟩
  · have e1 : depreciate 1 rate A CI fc = (round4 (CI + A), round4 (fc - A)) := by
      simp only [depreciate, depreciateGo, depSum]
      rw [if_neg (not_lt.mpr h), if_neg (not_lt.mpr h)]
      norm_num [Finset.sum_range_one]
    have b1 := abs_round4_sub (CI + A)
    have b2 := abs_round4_sub (fc - A)
    rw [e1]
    have e2 : round4 (CI + A) + round4 (fc - A) - (CI + fc)
        = (round4 (CI + A) - (CI + A)) + (round4 (fc - A) - (fc - A)) := by ring
    simp only [e2]
    exact le_trans (abs_add _ _) (by linarith)
  · intro stop ci fc0
    have hs := appreciateGo_sum rate A stop ci fc0
    have b1 := abs_round4_sub (appreciateGo rate A stop ci fc0).1
    have b2 := abs_round4_sub (appreciateGo rate A stop ci fc0).2
    simp only [appreciate]
    have e2 : round4 (appreciateGo rate A stop ci fc0).1
          + round4 (appreciateGo rate A stop ci fc0).2
          - (ci + fc0 + appreciateGrowth rate A stop ci)
        = (round4 (appreciateGo rate A stop ci fc0).1 - (appreciateGo rate A stop ci fc0).1)
          + (round4 (appreciateGo rate A stop ci fc0).2
              - (appreciateGo rate A stop ci fc0).2) := by
      rw [← hs]; ring
    simp only [e2]
    exact le_trans (abs_add _ _) (by linarith)

/-- C2 witness: the conservation bound instantiated at
`depreciate(stop=1, rate=10, A=10, CI=0, fixed_capital=1000)`. -/
theorem c2_witness :
    |(depreciate 1 10 10 0 1000).1 + (depreciate 1 10 10 0 1000).2 - (0 + 1000)| ≤ 1 / 10000 :=
  (c2_conservation 10 10 0 1000 (by norm_num)).1

/-- C3 (amended): in `TradingBot.run_bot` (`tradingBot.py`), whenever the tick outcome is
not a successful order dispatch — the threshold was not met, the quantity was forced to
zero, the order placement failed, or insufficiency was detected — the ledger state and
the state store are left completely unchanged. (The `TradeBot` loop of `trade.py` does
not satisfy this; see the counterexample.) -/
theorem c3_no_speculative_mutation (s : BotState) (store : List SavedRec) (price : ℚ)
    (m : MarketInfo) (b : Bool)
    (h : (runBotStep s store price m b).2.2.isTraded = false) :
    (runBotStep s store price m b).1 = s ∧ (runBotStep s store price m b).2.1 = store := by
  rcases hl : s.last_trade_price with _ | l
  · simp [runBotStep, hl]
  · rcases hd : decideAction s.rate l price with _ | _ | _
    · simp only [runBotStep, hl, hd] at h ⊢
      split_ifs at h ⊢ <;> first
        | exact ⟨rfl, rfl⟩
        | simp [TickOutcome.isTraded] at h
    · simp only [runBotStep, hl, hd] at h ⊢
      split_ifs at h ⊢ <;> first
        | exact ⟨rfl, rfl⟩
        | simp [TickOutcome.isTraded] at h
    · simp [runBotStep, hl, hd]

/-- C3 witness: a concrete failed buy order (price drop from 100 to 94, threshold 5,
order placement fails) leaves the `TradingBot` ledger and store untouched. -/
theorem c3_witness :
    (runBotStep ⟨10, 5, 1000, 0, some 100⟩ [] 94 ⟨1 / 10000, 5⟩ false).1
        = ⟨10, 5, 1000, 0, some 100⟩
    ∧ (runBotStep ⟨10, 5, 1000, 0, some 100⟩ [] 94 ⟨1 / 10000, 5⟩ false).2.1 = [] :=
  c3_no_speculative_mutation ⟨10, 5, 1000, 0, some 100⟩ [] 94 ⟨1 / 10000, 5⟩ false
    (by norm_num [runBotStep, decideAction, tickRate, get_quantity_to_trade, round3, pyRound,
      TickOutcome.isTraded])

/-- C3 counterexample: in `TradeBot` (`trade.py`), on a tick whose order dispatch fails
(price drop from 100 to 94, threshold 5, `buy` returns `None`), the ledger is still
mutated (`fixed_capital` goes from 1000 to 990) and a new record is still appended to the
store: the order result is ignored by the code. -/
theorem c3_counterexample :
    (tradeBotStep 5 10 ⟨10, 5, 0, 1000, 100, 0, 0⟩ [] 94 ⟨1 / 10000, 10⟩ false).2.2.isTraded
        = false
    ∧ (tradeBotStep 5 10 ⟨10, 5, 0, 1000, 100, 0, 0⟩ [] 94 ⟨1 / 10000, 10⟩ false).1.fixed_capital
        = 990
    ∧ (⟨10, 5, 0, 1000, 100, 0, 0⟩ : TradeParams).fixed_capital = 1000
    ∧ (tradeBotStep 5 10 ⟨10, 5, 0, 1000, 100, 0, 0⟩ [] 94 ⟨1 / 10000, 10⟩ false).2.1 ≠ [] := by
  norm_num [tradeBotStep, depreciate, depreciateGo, depSum, get_quantity_to_trade,
    round3, round4, pyRound, TickOutcome.isTraded, Finset.sum_range_succ]

/-- C4 (code bug in `trade.py`): insufficiency is not terminal for `TradeBot`. Starting
from `fixed_capital = 15`, `current_investment = 100`, `A = 10`, the first tick (price
drop to 94) detects insufficient capital ("Stopping trading." is printed but the loop
`continue`s), and the second tick (price rise to 110) still dispatches a sell order and
mutates the ledger (`fixed_capital` becomes 25). `TradingBot.run_bot` uses `break` and
does halt; `TradeBot`'s `continue` contradicts its own docstring
("Stops trading when fixed capital is less than the fixed amount to invest ..."). -/
theorem c4_halted_not_terminal :
    (tradeBotRun 5 10 ⟨10, 5, 100, 15, 100, 0, 0⟩ []
        [(94, ⟨1 / 10000, 5⟩, true), (110, ⟨1 / 10000, 5⟩, true)]).2.2
      = [.insufficient, .traded .sell]
    ∧ (tradeBotRun 5 10 ⟨10, 5, 100, 15, 100, 0, 0⟩ []
        [(94, ⟨1 / 10000, 5⟩, true), (110, ⟨1 / 10000, 5⟩, true)]).1.fixed_capital = 25 := by
  norm_num [tradeBotRun, tradeBotStep, depreciate, depreciateGo, depSum, appreciate,
    appreciateGo, get_quantity_to_trade, round3, round4, pyRound, Finset.sum_range_succ]

/-- C5: `depreciate(stop=1, rate=10, A=10, CI=0, fixed_capital=1000)` returns exactly
`(10.0, 990.0)`: one unit `A` is debited from fixed capital and the single-term geometric
series adds exactly `A` to the investment. -/
theorem c5_depreciate_example : depreciate 1 10 10 0 1000 = (10, 990) := by
  norm_num [depreciate, depreciateGo, depSum, round4, pyRound]

/-- C6: `appreciate(stop=1, rate=10, A=10, CI=10, fixed_capital=990)` returns exactly
`(1.0, 1000.0)`: `CI` grows by factor `1.1` to `11`, which exceeds `A = 10`, so `A` is
recovered to fixed capital and the remainder `1` stays invested. -/
theorem c6_appreciate_example : appreciate 1 10 10 10 990 = (1, 1000) := by
  norm_num [appreciate, appreciateGo, round4, pyRound]

theorem tickRate_of_lt (l price : ℚ) (hp : price < l) :
    tickRate l price = round3 ((l - price) / l * 100) := by
  rw [tickRate, abs_of_neg (by linarith : price - l < 0)]
  congr 1
  ring

/-- C7: the decision of `TradingBot.run_bot` is a buy exactly when the price fell below
the last trade price and `(last_trade_price - price) / last_trade_price * 100`, rounded
to 3 decimals, is at least the threshold; in particular with threshold 5,
`last_trade_price = 100` and tick price 94 the computed move is `6.0` and a buy is
triggered. -/
theorem c7_buy_trigger :
    (∀ thr l price : ℚ,
      decideAction thr l price = .buy ↔ price < l ∧ thr ≤ round3 ((l - price) / l * 100))
    ∧ decideAction 5 100 94 = .buy
    ∧ round3 (((100 : ℚ) - 94) / 100 * 100) = 6 := by
  refine ⟨?_, ?_, ?_⟩
  · intro thr l price
    constructor
    · intro h
      unfold decideAction at h
      split_ifs at h with h1 h2
      exact ⟨h1.1, by rw [← tickRate_of_lt l price h1.1]; exact h1.2⟩
    · rintro ⟨hp, hr⟩
      unfold decideAction
      rw [if_pos ⟨hp, by rw [tickRate_of_lt l price hp]; exact hr⟩]
  · norm_num [decideAction, tickRate, round3, pyRound]
  · norm_num [round3, pyRound]

/-- C8: the computed quantity is a multiple of `step_size`, never exceeds
`amortized_investment / current_price`, and satisfies the minimum-notional gate: a
non-zero quantity has order value at least `min_notional`, and an order value below
`min_notional` forces the quantity to `0`. With `amortized_investment = 10`,
`current_price = 50000`, `step_size = 0.0001`: at `min_notional = 10` the trade proceeds
with quantity `0.0002` and order value `10`; at `min_notional = 15` the quantity is
forced to `0` and the bot loop skips the tick, leaving ledger and store unchanged. -/
theorem c8_trade_sizing :
    (∀ A p st mn : ℚ, 0 < p → 0 < st → 0 ≤ A →
      (∃ k : ℤ, (get_quantity_to_trade A p st mn).1 = k * st)
      ∧ ((get_quantity_to_trade A p st mn).1 ≠ 0 → mn ≤ (get_quantity_to_trade A p st mn).1 * p)
      ∧ ((get_quantity_to_trade A p st mn).1 * p < mn → (get_quantity_to_trade A p st mn).1 = 0)
      ∧ (get_quantity_to_trade A p st mn).1 ≤ A / p)
    ∧ get_quantity_to_trade 10 50000 (1 / 10000) 10 = (1 / 5000, 10)
    ∧ (get_quantity_to_trade 10 50000 (1 / 10000) 15).1 = 0
    ∧ runBotStep ⟨10, 5, 1000, 0, some 100000⟩ [] 50000 ⟨1 / 10000, 15⟩ true
        = (⟨10, 5, 1000, 0, some 100000⟩, [], .skipped) := by
  refine ⟨?_, ?_, ?_, ?_⟩
  · intro A p st mn hp hst hA
    simp only [get_quantity_to_trade]
    split_ifs with h
    · exact ⟨⟨0, by ring⟩, fun h0 => absurd rfl h0, fun _ => rfl, div_nonneg hA hp.le⟩
    · refine ⟨⟨⌊A / p / st⌋, rfl⟩, fun _ => not_lt.mp h, fun hc => absurd hc h, ?_⟩
      calc (⌊A / p / st⌋ : ℚ) * st ≤ (A / p / st) * st :=
            mul_le_mul_of_nonneg_right (Int.floor_le _) hst.le
        _ = A / p := div_mul_cancel₀ _ (ne_of_gt hst)
  · norm_num [get_quantity_to_trade]
  · norm_num [get_quantity_to_trade]
  · norm_num [runBotStep, decideAction, tickRate, get_quantity_to_trade, round3, pyRound]

/-- C8 witness: the sizing properties instantiated at the spec's example
(`amortized_investment = 10`, `current_price = 50000`, `step_size = 0.0001`,
`min_notional = 10`). -/
theorem c8_witness :
    ∃ k : ℤ, (get_quantity_to_trade 10 50000 (1 / 10000) 10).1 = k * (1 / 10000) :=
  (c8_trade_sizing.1 10 50000 (1 / 10000) 10 (by norm_num) (by norm_num) (by norm_num)).1

/-- C9: saving a state whose `last_trade_price` is set and then loading restores every
field exactly (the loaded record is the most recently appended one); loading from an
empty or absent store leaves the configured defaults unchanged. -/
theorem c9_roundtrip :
    (∀ (s : BotState) (store : List SavedRec) (p : ℚ),
      s.last_trade_price = some p → load_state s (save_state s store) = s)
    ∧ (∀ s : BotState, load_state s [] = s) := by
  constructor
  · intro s store p hp
    cases s with
    | mk A r fc ci ltp =>
      simp only at hp
      subst hp
      simp [save_state, load_state, getLast?_append_one]
  · intro s
    rfl

/-- C9 witness: the round trip at a concrete ledger state. -/
theorem c9_witness :
    load_state ⟨10, 5, 990, 10, some 100⟩ (save_state ⟨10, 5, 990, 10, some 100⟩ [])
      = ⟨10, 5, 990, 10, some 100⟩ :=
  c9_roundtrip.1 ⟨10, 5, 990, 10, some 100⟩ [] 100 rfl

/-- C10: when `last_trade_price` is `None`, `_save_state` appends nothing — the store is
returned completely unchanged, whatever the other ledger fields hold. -/
theorem c10_save_none (s : BotState) (store : List SavedRec)
    (h : s.last_trade_price = none) : save_state s store = store := by
  simp [save_state, h]

/-- C10 witness: saving a ledger with modified fields but no last trade price leaves an
empty store empty. -/
theorem c10_witness : save_state ⟨10, 5, 1000, 0, none⟩ [] = [] :=
  c10_save_none ⟨10, 5, 1000, 0, none⟩ [] rfl
